import Mathlib

/-!
Shallow embedding of `src/lambda/handler.py` (an AWS Lambda that ingests the
USGS earthquake feed, normalizes items, optionally summarizes them via
external providers, best-effort persists them, and publishes a snapshot to S3).

External collaborators (network, S3, DynamoDB, clock) are modelled as an
explicit `Behaviour` record of oracles; a Python exception escaping the
handler is modelled as `Except.error` in the invocation result.
-/

namespace Handler

/-! ## SHA-1 (`hashlib.sha1(...).hexdigest()`), over byte lists -/

/-- Rotate a 32-bit word left by `n` bits (word kept below `2 ^ 32`). -/
def rotl (n w : Nat) : Nat := ((w <<< n) ||| (w >>> (32 - n))) % 4294967296

/-- SHA-1 message padding: append `0x80`, zeros to 56 mod 64, then the
64-bit big-endian bit length. -/
def sha1Pad (msg : List Nat) : List Nat :=
  let len := msg.length
  let zeros := (120 - (len + 1) % 64) % 64
  let bitLen := 8 * len
  msg ++ 0x80 :: (List.replicate zeros 0 ++
    (List.range 8).map (fun i => (bitLen >>> (8 * (7 - i))) % 256))

/-- Group bytes into big-endian 32-bit words. -/
def toWords : List Nat → List Nat
  | b0 :: b1 :: b2 :: b3 :: rest =>
      (b0 * 16777216 + b1 * 65536 + b2 * 256 + b3) :: toWords rest
  | _ => []

/-- Split a byte list into 64-byte blocks (structural on a fuel bound that
the initial call sets to the list length, which step-wise shrinking by 64
never exhausts). -/
def chunksAux : Nat → List Nat → List (List Nat)
  | 0, _ => []
  | _, [] => []
  | fuel + 1, l => l.take 64 :: chunksAux fuel (l.drop 64)

/-- Split a byte list into 64-byte blocks. -/
def chunks64 (l : List Nat) : List (List Nat) := chunksAux l.length l

/-- Extend the 16 message words of a block, one word per step:
`w[i] = rotl1 (w[i-3] xor w[i-8] xor w[i-14] xor w[i-16])`. -/
def extendW (ws : List Nat) : Nat → List Nat
  | 0 => ws
  | k + 1 =>
    let i := ws.length
    let next := rotl 1 (Nat.xor (Nat.xor (ws.getD (i - 3) 0) (ws.getD (i - 8) 0))
      (Nat.xor (ws.getD (i - 14) 0) (ws.getD (i - 16) 0)))
    extendW (ws ++ [next]) k

/-- One SHA-1 round: state `(a,b,c,d,e)`, round index `i`, message word `w`. -/
def sha1Round (st : Nat × Nat × Nat × Nat × Nat) (i w : Nat) :
    Nat × Nat × Nat × Nat × Nat :=
  let (a, b, c, d, e) := st
  let f :=
    if i < 20 then (b &&& c) ||| ((b ^^^ 4294967295) &&& d)
    else if i < 40 then b ^^^ c ^^^ d
    else if i < 60 then (b &&& c) ||| (b &&& d) ||| (c &&& d)
    else b ^^^ c ^^^ d
  let k :=
    if i < 20 then 0x5A827999
    else if i < 40 then 0x6ED9EBA1
    else if i < 60 then 0x8F1BBCDC
    else 0xCA62C1D6
  ((rotl 5 a + f + e + k + w) % 4294967296, a, rotl 30 b, c, d)

/-- Compress one 64-byte block into the running hash state. -/
def sha1Block (h : Nat × Nat × Nat × Nat × Nat) (block : List Nat) :
    Nat × Nat × Nat × Nat × Nat :=
  let ws := extendW (toWords block) 64
  let (a, b, c, d, e) :=
    (List.range 80).foldl (fun st i => sha1Round st i (ws.getD i 0)) h
  let (h0, h1, h2, h3, h4) := h
  ((h0 + a) % 4294967296, (h1 + b) % 4294967296, (h2 + c) % 4294967296,
   (h3 + d) % 4294967296, (h4 + e) % 4294967296)

/-- SHA-1 digest of a byte list, as five 32-bit words. -/
def sha1Words (msg : List Nat) : Nat × Nat × Nat × Nat × Nat :=
  (chunks64 (sha1Pad msg)).foldl sha1Block
    (0x67452301, 0xEFCDAB89, 0x98BADCFE, 0x10325476, 0xC3D2E1F0)

/-- The sixteen lowercase hex digit characters. -/
def hexDigitsL : List Char := "0123456789abcdef".data

/-- Hex character of a nibble. -/
def hexChar (n : Nat) : Char := hexDigitsL.getD n '0'

/-- Fixed-width (8 hex digit) rendering of a 32-bit word, big-endian nibbles. -/
def wordHexChars (w : Nat) : List Char :=
  (List.range 8).map (fun k => hexChar (w / 16 ^ (7 - k) % 16))

/-- Characters of `hashlib.sha1(bytes).hexdigest()`: 40 lowercase hex chars. -/
def sha1HexChars (msg : List Nat) : List Char :=
  let (h0, h1, h2, h3, h4) := sha1Words msg
  wordHexChars h0 ++ wordHexChars h1 ++ wordHexChars h2 ++
    wordHexChars h3 ++ wordHexChars h4

/-- UTF-8 encoding of one Unicode scalar value. -/
def utf8Bytes (c : Char) : List Nat :=
  let n := c.toNat
  if n < 128 then [n]
  else if n < 2048 then [192 + n / 64, 128 + n % 64]
  else if n < 65536 then [224 + n / 4096, 128 + n / 64 % 64, 128 + n % 64]
  else [240 + n / 262144, 128 + n / 4096 % 64, 128 + n / 64 % 64, 128 + n % 64]

/-- UTF-8 bytes of a string (`s.encode("utf-8")`). -/
def strBytes (s : String) : List Nat := s.data.flatMap utf8Bytes

/-- Line 27-29: short stable id from a string,
`hashlib.sha1(s.encode("utf-8")).hexdigest()[:16]`. -/
def _id (s : String) : String := String.mk ((sha1HexChars (strBytes s)).take 16)

/-! ## ISO-8601 UTC formatting
Model of `datetime.fromtimestamp(tms / 1000, tz=timezone.utc).isoformat()`
(line 129), with the millisecond value treated exactly (the Python code
divides by 1000 in floating point; for feed-scale timestamps this is the
same value). -/

/-- Left-pad the decimal rendering of `n` with zeros to width `w`. -/
def padNum (w n : Nat) : String :=
  let s := toString n
  String.mk (List.replicate (w - s.length) '0') ++ s

/-- Civil date from days since 1970-01-01 (proleptic Gregorian). -/
def civilFromDays (z0 : Int) : Int × Nat × Nat :=
  let z := z0 + 719468
  let era : Int := Int.fdiv z 146097
  let doe : Nat := (z - era * 146097).toNat
  let yoe : Nat := (doe - doe / 1460 + doe / 36524 - doe / 146096) / 365
  let y : Int := (yoe : Int) + era * 400
  let doy : Nat := doe - (365 * yoe + yoe / 4 - yoe / 100)
  let mp : Nat := (5 * doy + 2) / 153
  let d : Nat := doy - (153 * mp + 2) / 5 + 1
  let m : Nat := if mp < 10 then mp + 3 else mp - 9
  (if m ≤ 2 then y + 1 else y, m, d)

/-- ISO-8601 UTC timestamp of an epoch-milliseconds value, as produced by
`datetime.fromtimestamp(tms / 1000, tz=timezone.utc).isoformat()`:
`YYYY-MM-DDTHH:MM:SS[.ffffff]+00:00`, fractional part only when nonzero. -/
def isoOfMillis (tms : Int) : String :=
  let secs : Int := Int.fdiv tms 1000
  let millis : Nat := (tms - secs * 1000).toNat
  let days : Int := Int.fdiv secs 86400
  let sod : Nat := (secs - days * 86400).toNat
  let (y, mo, d) := civilFromDays days
  let frac := if millis = 0 then "" else "." ++ padNum 6 (millis * 1000)
  padNum 4 y.toNat ++ "-" ++ padNum 2 mo ++ "-" ++ padNum 2 d ++ "T" ++
    padNum 2 (sod / 3600) ++ ":" ++ padNum 2 (sod % 3600 / 60) ++ ":" ++
    padNum 2 (sod % 60) ++ frac ++ "+00:00"

/-! ## Data model -/

/-- The `geometry.coordinates` value of a feature. `absent` covers a missing,
null or falsy `geometry`/`properties` object and a missing `coordinates` key
(all of which make line 123 yield the default `[None, None, None]`);
`null` is a `coordinates` key present with value `null` (then
`geom.get("coordinates", ...)` returns `None`); `list` is an actual JSON
array, each entry a number or `null`. -/
inductive CoordField
  | absent
  | null
  | list (xs : List (Option ℚ))
deriving DecidableEq

/-- One entry of the feed's `features` array, restricted to the fields the
handler reads (numbers modelled as rationals). `none` covers both an absent
key and a JSON `null` value wherever the two are read identically
(`props.get(...)` returns `None` in both cases). -/
structure RawFeedItem where
  mag : Option ℚ
  place : Option String
  time : Option Int
  coordinates : CoordField
  tsunami : Option Int
  url : Option String
deriving DecidableEq

/-- The `plain` dict built at lines 136-143: always all six keys. -/
structure NormalizedAlert where
  magnitude : Option ℚ
  place : Option String
  time_utc : String
  depth_km : Option ℚ
  tsunami : Bool
  source : String
deriving DecidableEq

/-- One entry of `feed_for_web` (lines 163-169). -/
structure AlertRecord where
  id : String
  created_at : String
  type : String
  data : NormalizedAlert
  summary : String
deriving DecidableEq

/-- Environment-derived configuration (lines 9-15). -/
structure Config where
  DDB_TABLE : String
  WEBSITE_BUCKET : String
  OPENROUTER_API_KEY : String
  HF_TOKEN : String
  MODEL : String
  MAX_ITEMS : Nat
  SUMMARIES_TO_KEEP : Nat

/-- Parsed JSON of a Hugging Face response, abstracted to the three shapes
lines 85-89 distinguish: a list whose first element carries `summary_text`,
a dict carrying `summary_text`, or anything else (carried as its Python
`str(out)` rendering). -/
inductive HFOut
  | listWithSummary (s : String)
  | dictWithSummary (s : String)
  | other (repr : String)
deriving DecidableEq

/-- Oracles for the external collaborators of one invocation. An
`Except.error` value is the collaborator call raising (network error,
timeout, malformed body, AWS client error); `ok` is a successful call with
the payload the code goes on to read. -/
structure Behaviour where
  /-- Outcome of `_fetch_usgs()` (lines 31-35); on success, the value of
  `data.get("features", [])` (`none` when the key is absent or null,
  making line 116 fall back to `[]`). -/
  fetchResult : Except String (Option (List RawFeedItem))
  /-- The `datetime.now(timezone.utc).isoformat()` of this invocation
  (line 117). -/
  nowIso : String
  /-- Outcome of the OpenRouter call (lines 53-66), per request payload: on
  success, the `out["choices"][0]["message"]["content"]` string (any failure
  of transport, JSON parsing or key lookup happens inside the `try` and is
  one `error`). -/
  primary : NormalizedAlert → Except Unit String
  /-- Outcome of the Hugging Face call (lines 73-89), per request payload:
  on success, the parsed JSON response. -/
  secondary : NormalizedAlert → Except Unit HFOut
  /-- Outcome of `dynamodb.put_item` (lines 150-159). -/
  ddb : AlertRecord → Except Unit Unit
  /-- Outcome of `s3.put_object` inside `_publish_feed` (lines 96-105),
  per published list. -/
  publish : List AlertRecord → Except String Unit

/-! ## Summarizer (`_ai_summarize`, lines 37-94) -/

/-- Lines 37-94: `_ai_summarize(plain)`. Tries OpenRouter when its key is
truthy, then Hugging Face when its token is truthy, else the placeholder.
Provider exceptions are swallowed (`except Exception: pass`); a Hugging Face
response that parses but lacks `summary_text` in either shape returns
`str(out)[:300]` (line 89). -/
def _ai_summarize (cfg : Config) (b : Behaviour) (plain : NormalizedAlert) : String :=
  let hfStep :=
    if cfg.HF_TOKEN ≠ "" then
      match b.secondary plain with
      | .ok (.listWithSummary s) => s.trim
      | .ok (.dictWithSummary s) => s.trim
      | .ok (.other r) => String.mk (r.toList.take 300)
      | .error _ => "Summary unavailable."
    else "Summary unavailable."
  if cfg.OPENROUTER_API_KEY ≠ "" then
    match b.primary plain with
    | .ok content => content.trim
    | .error _ => hfStep
  else hfStep

/-! ## Normalization (loop body, lines 120-143) -/

/-- Python `f"{x}"` of a nullable string (`None` renders as `"None"`). -/
def pyShowOptStr : Option String → String
  | none => "None"
  | some s => s

/-- Python `f"{x}"` of a nullable number (model rendering of the float;
every claim about ids depends only on this being a function of the value). -/
def pyShowOptNum : Option ℚ → String
  | none => "None"
  | some q => toString q

/-- Lines 120-143 for one feature: build the `plain` dict. Total except for
one genuine raise: a `coordinates` key that is present with value `null`
makes line 132 evaluate `len(None)` and raise `TypeError`, which nothing in
the loop catches. -/
def normalizeItem (now_iso : String) (f : RawFeedItem) : Except String NormalizedAlert := do
  let time_utc :=
    match f.time with
    | some tms => if tms = 0 then now_iso else isoOfMillis tms
    | none => now_iso
  let depth_km : Option ℚ ←
    match f.coordinates with
    | .absent => Except.ok none
    | .null => Except.error "TypeError: object of type NoneType has no len"
    | .list xs => Except.ok (if xs.length ≥ 3 then xs.getD 2 none else none)
  let source :=
    match f.url with
    | some s => if s = "" then "" else s
    | none => ""
  let tsunami :=
    match f.tsunami with
    | some t => t ≠ 0
    | none => false
  Except.ok
    { magnitude := f.mag, place := f.place, time_utc := time_utc,
      depth_km := depth_km, tsunami := tsunami, source := source }

/-- Line 145: the id input string `f"{time_utc}-{place}-{mag}"`. -/
def idInput (time_utc : String) (place : Option String) (mag : Option ℚ) : String :=
  time_utc ++ "-" ++ pyShowOptStr place ++ "-" ++ pyShowOptNum mag

/-- Lines 145-169 for one normalized item: derive the id, summarize, and
build the `feed_for_web` entry. -/
def mkRecord (cfg : Config) (b : Behaviour) (now_iso : String)
    (plain : NormalizedAlert) : AlertRecord :=
  { id := _id (idInput plain.time_utc plain.place plain.magnitude),
    created_at := now_iso,
    type := "earthquake",
    data := plain,
    summary := _ai_summarize cfg b plain }

/-- Observable effects of the per-item loop: accumulated `feed_for_web`
records, the payloads sent to the summarizer, the DynamoDB put attempts
(whose outcome lines 149-161 discard), and the exception aborting the loop,
if any. -/
structure LoopOut where
  records : List AlertRecord
  summarized : List NormalizedAlert
  persisted : List AlertRecord
  err : Option String
deriving DecidableEq

/-- The `for f in features` loop (lines 120-169). An exception from
`normalizeItem` propagates (nothing catches it), abandoning the rest. -/
def processFeed (cfg : Config) (b : Behaviour) (now_iso : String) :
    List RawFeedItem → LoopOut
  | [] => ⟨[], [], [], none⟩
  | f :: rest =>
    match normalizeItem now_iso f with
    | .error e => ⟨[], [], [], some e⟩
    | .ok plain =>
      let r := mkRecord cfg b now_iso plain
      let tail := processFeed cfg b now_iso rest
      ⟨r :: tail.records, plain :: tail.summarized, r :: tail.persisted, tail.err⟩

/-! ## Sorting and publishing -/

/-- Code-point lexicographic `≤` on character lists — how Python compares
`str` sort keys. -/
def charsLe : List Char → List Char → Bool
  | [], _ => true
  | _ :: _, [] => false
  | x :: xs, y :: ys =>
    if x.toNat < y.toNat then true
    else if y.toNat < x.toNat then false
    else charsLe xs ys

/-- Code-point lexicographic `≤` on strings. -/
def strLe (a b : String) : Bool := charsLe a.data b.data

/-- Stable descending insertion: an earlier element goes before a later one
with the same key. -/
def insertDesc (x : AlertRecord) : List AlertRecord → List AlertRecord
  | [] => [x]
  | y :: ys =>
    if strLe y.created_at x.created_at then x :: y :: ys else y :: insertDesc x ys

/-- Line 172: `sorted(feed_for_web, key=lambda x: x["created_at"],
reverse=True)` — Python's sort is stable, and with `reverse=True` elements
with equal keys keep their original order; modelled as a stable descending
insertion sort. -/
def pySortedDesc : List AlertRecord → List AlertRecord
  | [] => []
  | x :: xs => insertDesc x (pySortedDesc xs)

/-- Lines 116 and 172 combined for a fetched `features` value: truncate to
`MAX_ITEMS`, process, sort, truncate to `SUMMARIES_TO_KEEP`. -/
def snapshotOf (cfg : Config) (b : Behaviour) (features : List RawFeedItem) :
    List AlertRecord :=
  (pySortedDesc (processFeed cfg b b.nowIso features).records).take
    cfg.SUMMARIES_TO_KEEP

/-- The structured value an invocation returns: `{"count": n}` (line 181) or
`{"error": msg}` (line 114). -/
inductive HandlerResult
  | count (n : Nat)
  | error (msg : String)
deriving DecidableEq

instance {ε α : Type} [DecidableEq ε] [DecidableEq α] : DecidableEq (Except ε α) :=
  fun x y =>
    match x, y with
    | .ok a, .ok b =>
      if h : a = b then .isTrue (by rw [h]) else .isFalse (by simp [h])
    | .error a, .error b =>
      if h : a = b then .isTrue (by rw [h]) else .isFalse (by simp [h])
    | .ok _, .error _ => .isFalse (by simp)
    | .error _, .ok _ => .isFalse (by simp)

/-- Everything observable about one invocation: the arguments of the
`_publish_feed` calls made, the summarizer payloads, the DynamoDB put
attempts, and either the returned `HandlerResult` or (as `Except.error`)
the Python exception that escaped the handler. -/
structure Invocation where
  published : List (List AlertRecord)
  summarized : List NormalizedAlert
  persisted : List AlertRecord
  result : Except String HandlerResult
deriving DecidableEq

/-- Lines 107-181: the Lambda `handler`.
On fetch failure (lines 109-114), `_publish_feed([])` runs with **no**
`try` around it, so a publish failure there raises out of the handler;
otherwise `{"error": f"USGS fetch failed: {e}"}` is returned.
On fetch success, the loop runs (an item exception propagates), the batch is
sorted and truncated, the publish at lines 175-179 swallows its own failure,
and `{"count": len(feed_for_web)}` is returned. -/
def handler (cfg : Config) (b : Behaviour) : Invocation :=
  match b.fetchResult with
  | .error e =>
    match b.publish [] with
    | .ok _ => ⟨[[]], [], [], .ok (.error ("USGS fetch failed: " ++ e))⟩
    | .error pe => ⟨[[]], [], [], .error pe⟩
  | .ok feat =>
    let features := (feat.getD []).take cfg.MAX_ITEMS
    let lo := processFeed cfg b b.nowIso features
    match lo.err with
    | some e => ⟨[], lo.summarized, lo.persisted, .error e⟩
    | none =>
      let snapshot := (pySortedDesc lo.records).take cfg.SUMMARIES_TO_KEEP
      ⟨[snapshot], lo.summarized, lo.persisted, .ok (.count snapshot.length)⟩

/-! ## Concrete fixtures used by witnesses and counterexamples -/

/-- A configuration with no provider credentials and the default bounds. -/
def cfgW : Config :=
  ⟨"disaster_alerts", "bkt", "", "", "qwen/qwen-2.5-7b-instruct", 40, 50⟩

/-- The feed item of end-to-end scenario A of the spec. -/
def itemW : RawFeedItem :=
  ⟨some (51/10), some "10km N of Testville", some 951867000000,
    .list [some 1, some 2, some (123/10)], some 0, some "u"⟩

/-- A feed item whose `coordinates` key is present with value `null`. -/
def itemNullCoords : RawFeedItem := ⟨none, none, none, .null, none, none⟩

/-- A feed item whose source time is the epoch, `time = 0`. -/
def itemTimeZero : RawFeedItem := ⟨none, none, some 0, .absent, none, none⟩

/-- A behaviour where every external call succeeds and the feed has one
item; provider oracles are never consulted under `cfgW` (no credentials). -/
def bW : Behaviour :=
  ⟨.ok (some [itemW]), "2024-01-01T00:00:00+00:00",
    fun _ => .error (), fun _ => .error (), fun _ => .ok (), fun _ => .ok ()⟩

/-- Fetch raises, S3 works. -/
def bFetchFailPubOk : Behaviour := { bW with fetchResult := .error "timeout" }

/-- Fetch raises and the S3 put of the empty snapshot also raises. -/
def bFetchFailPubFail : Behaviour :=
  { bW with fetchResult := .error "timeout", publish := fun _ => .error "S3 down" }

/-- Fetch raises and the S3 put of the empty snapshot raises (second
scenario, for the safety claim). -/
def bFetchFailPubDenied : Behaviour :=
  { bW with fetchResult := .error "connection reset",
            publish := fun _ => .error "AccessDenied" }

/-- Fetch succeeds but the second feed item carries `coordinates: null`. -/
def bNullCoordsFeed : Behaviour :=
  { bW with fetchResult := .ok (some [itemW, itemNullCoords]) }

/-- Configuration with only the Hugging Face token set. -/
def cfgHF : Config := { cfgW with HF_TOKEN := "t" }

/-- The Hugging Face call returns JSON without `summary_text` in either
shape (modelled with `str(out) = "oops"`). -/
def bHFMalformed : Behaviour := { bW with secondary := fun _ => .ok (.other "oops") }

/-- The Hugging Face call raises. -/
def bHFError : Behaviour := { bW with secondary := fun _ => .error () }

/-- Fetch succeeds with one item; the snapshot publish raises. -/
def bPubFail : Behaviour := { bW with publish := fun _ => .error "AccessDenied" }

/-- A 50-item feed under bounds `MAX_ITEMS = 40`, `SUMMARIES_TO_KEEP = 30`
(end-to-end scenario B). -/
def cfgB : Config := { cfgW with MAX_ITEMS := 40, SUMMARIES_TO_KEEP := 30 }

/-- Fifty copies of the scenario item. -/
def feed50 : List RawFeedItem := List.replicate 50 itemW

/-- Behaviour fetching 50 copies of the scenario item. -/
def b50 : Behaviour := { bW with fetchResult := .ok (some feed50) }

/-- Small bounds for the order-preservation witness. -/
def cfgSmall : Config := { cfgW with MAX_ITEMS := 3, SUMMARIES_TO_KEEP := 2 }

/-- Four distinguishable feed items. -/
def fourItems : List RawFeedItem :=
  [{ itemW with place := some "A" }, { itemW with place := some "B" },
   { itemW with place := some "C" }, { itemW with place := some "D" }]

/-- Behaviour fetching the four distinguishable items. -/
def bFour : Behaviour := { bW with fetchResult := .ok (some fourItems) }

/-- A normalized record used as a summarizer payload in witnesses. -/
def plainW : NormalizedAlert := ⟨none, none, "n", none, false, ""⟩

/-- A feed item with a nonzero source time and no other fields. -/
def itemT : RawFeedItem := ⟨none, none, some 1700000000000, .absent, none, none⟩

/-- The normalization of `itemT` at a fixed `now`. -/
def alertT : NormalizedAlert := ⟨none, none, "2023-11-14T22:13:20+00:00", none, false, ""⟩

/-! ## General lemmas about the loop and the sort -/

theorem charsLe_refl (l : List Char) : charsLe l l = true := by
  induction l with
  | nil => rfl
  | cons x xs ih => simp [charsLe, ih]

theorem strLe_refl (s : String) : strLe s s = true := charsLe_refl s.data

theorem insertDesc_const (x : AlertRecord) (l : List AlertRecord) (c : String)
    (hx : x.created_at = c) (hl : ∀ r ∈ l, r.created_at = c) :
    insertDesc x l = x :: l := by
  cases l with
  | nil => rfl
  | cons y ys =>
    have hy : y.created_at = c := hl y (List.mem_cons_self y ys)
    simp [insertDesc, hy, hx, strLe_refl]

theorem pySortedDesc_const (l : List AlertRecord) (c : String)
    (hl : ∀ r ∈ l, r.created_at = c) : pySortedDesc l = l := by
  induction l with
  | nil => rfl
  | cons x xs ih =>
    have hxs : ∀ r ∈ xs, r.created_at = c := fun r hr => hl r (List.mem_cons_of_mem x hr)
    rw [pySortedDesc, ih hxs]
    exact insertDesc_const x xs c (hl x (List.mem_cons_self x xs)) hxs

theorem processFeed_created_at (cfg : Config) (b : Behaviour) (now : String)
    (items : List RawFeedItem) :
    ∀ r ∈ (processFeed cfg b now items).records, r.created_at = now := by
  induction items with
  | nil => intro r hr; simp [processFeed] at hr
  | cons f rest ih =>
    intro r hr
    rw [processFeed] at hr
    cases hn : normalizeItem now f with
    | error e => rw [hn] at hr; simp at hr
    | ok plain =>
      rw [hn] at hr
      simp only [List.mem_cons] at hr
      rcases hr with h | h
      · rw [h]; rfl
      · exact ih r h

theorem processFeed_ok (cfg : Config) (b : Behaviour) (now : String)
    (items : List RawFeedItem)
    (hok : ∀ f ∈ items, (normalizeItem now f).isOk = true) :
    (processFeed cfg b now items).err = none ∧
      (processFeed cfg b now items).records.length = items.length := by
  induction items with
  | nil => exact ⟨rfl, rfl⟩
  | cons f rest ih =>
    have hf := hok f (List.mem_cons_self f rest)
    have hrest : ∀ g ∈ rest, (normalizeItem now g).isOk = true :=
      fun g hg => hok g (List.mem_cons_of_mem f hg)
    obtain ⟨ih1, ih2⟩ := ih hrest
    cases hn : normalizeItem now f with
    | error e => rw [hn] at hf; simp [Except.isOk, Except.toBool] at hf
    | ok plain =>
      constructor
      · rw [processFeed, hn]; exact ih1
      · rw [processFeed, hn]; simp [ih2]

theorem processFeed_length_le (cfg : Config) (b : Behaviour) (now : String)
    (items : List RawFeedItem) :
    (processFeed cfg b now items).records.length ≤ items.length := by
  induction items with
  | nil => simp [processFeed]
  | cons f rest ih =>
    rw [processFeed]
    cases hn : normalizeItem now f with
    | error e => simp
    | ok plain => simpa using ih

theorem processFeed_take (cfg : Config) (b : Behaviour) (now : String)
    (items : List RawFeedItem)
    (hok : ∀ f ∈ items, (normalizeItem now f).isOk = true) :
    ∀ k : Nat, (processFeed cfg b now (items.take k)).records =
      (processFeed cfg b now items).records.take k := by
  induction items with
  | nil => intro k; simp [processFeed]
  | cons f rest ih =>
    intro k
    have hf := hok f (List.mem_cons_self f rest)
    have hrest : ∀ g ∈ rest, (normalizeItem now g).isOk = true :=
      fun g hg => hok g (List.mem_cons_of_mem f hg)
    cases k with
    | zero => simp [processFeed]
    | succ k =>
      cases hn : normalizeItem now f with
      | error e => rw [hn] at hf; simp [Except.isOk, Except.toBool] at hf
      | ok plain =>
        simp only [List.take_succ_cons]
        rw [processFeed, hn, processFeed, hn]
        simp [ih hrest k]

/-- What `time_utc` an accepted normalization carries: the converted source
time when that is truthy, else the invocation `now`. -/
theorem normalizeItem_time (now : String) (f : RawFeedItem) (a : NormalizedAlert)
    (h : normalizeItem now f = .ok a) :
    a.time_utc =
      (match f.time with
       | some tms => if tms = 0 then now else isoOfMillis tms
       | none => now) := by
  rcases f with ⟨mag, place, time, coords, tsu, url⟩
  cases coords with
  | absent =>
    simp only [normalizeItem, bind, Except.bind, Except.ok.injEq] at h
    rw [← h]
  | null => simp [normalizeItem, bind, Except.bind] at h
  | list xs =>
    simp only [normalizeItem, bind, Except.bind, Except.ok.injEq] at h
    rw [← h]

/-! ## Claim theorems -/

/-- C1 (amended): if the feed fetch raises and the empty-snapshot publish
succeeds, the invocation publishes exactly one snapshot, the empty one,
performs no normalization, summarization or persistence, and returns
`{"error": "USGS fetch failed: <e>"}` with no count. (As literally stated
the claim also covers a failing empty-snapshot publish, where the handler
raises instead of returning — see the counterexample.) -/
theorem c1_fetch_error_publishes_empty (cfg : Config) (b : Behaviour) (e : String)
    (hfetch : b.fetchResult = .error e) (hpub : b.publish [] = .ok ()) :
    handler cfg b =
      ⟨[[]], [], [], .ok (.error ("USGS fetch failed: " ++ e))⟩ ∧
    ∀ n, (handler cfg b).result ≠ .ok (.count n) := by
  have h : handler cfg b = ⟨[[]], [], [], .ok (.error ("USGS fetch failed: " ++ e))⟩ := by
    rw [handler, hfetch, hpub]
  exact ⟨h, by rw [h]; intro n hn; exact absurd hn (by simp)⟩

/-- C1 witness: concrete fetch failure with a working S3 put. -/
theorem c1_witness :
    handler cfgW bFetchFailPubOk =
      ⟨[[]], [], [], .ok (.error "USGS fetch failed: timeout")⟩ :=
  (c1_fetch_error_publishes_empty cfgW bFetchFailPubOk "timeout" rfl rfl).1

/-- C1 counterexample: when the fetch raises and the S3 put of the empty
snapshot also raises, the invocation does not return a result at all — the
publish exception escapes (line 113 has no `try` around `_publish_feed`),
refuting "returns a result containing an error string". -/
theorem c1_counterexample :
    (handler cfgW bFetchFailPubFail).result = .error "S3 down" ∧
    (handler cfgW bFetchFailPubFail).result.isOk = false := by
  exact ⟨rfl, rfl⟩

/-- C2 (amended): the handler returns a structured result for every
collaborator behaviour in which (a) a fetch failure is followed by a
successful empty-snapshot publish and (b) no fetched item in the processed
window carries `coordinates: null`. Outside those two provisos an exception
escapes the handler (see the counterexample and the C3 analysis). -/
theorem c2_structured_result (cfg : Config) (b : Behaviour)
    (hpubEmpty : ∀ e, b.fetchResult = .error e → b.publish [] = .ok ())
    (hitems : ∀ feat, b.fetchResult = .ok feat →
      ∀ f ∈ (feat.getD []).take cfg.MAX_ITEMS, (normalizeItem b.nowIso f).isOk = true) :
    (handler cfg b).result.isOk = true := by
  cases hf : b.fetchResult with
  | error e =>
    have hp := hpubEmpty e hf
    simp [handler, hf, hp, Except.isOk, Except.toBool]
  | ok feat =>
    have herr := (processFeed_ok cfg b b.nowIso _ (hitems feat hf)).1
    simp [handler, hf, herr, Except.isOk, Except.toBool]

/-- C2 witness: a fetch failure whose empty publish succeeds yields a
structured result. -/
theorem c2_witness : (handler cfgW bFetchFailPubOk).result.isOk = true :=
  c2_structured_result cfgW bFetchFailPubOk
    (fun _ _ => rfl) (fun _ hf => Except.noConfusion hf)

/-- C2 counterexample: with a fetch failure and a failing S3 put of the
empty snapshot, an exception escapes the invocation — there is no
structured result, refuting "the handler never raises ... even when the
snapshot publish itself fails on the fetch-failure path". -/
theorem c2_counterexample :
    (handler cfgW bFetchFailPubDenied).result = .error "AccessDenied" ∧
    (handler cfgW bFetchFailPubDenied).result.isOk = false := by
  exact ⟨rfl, rfl⟩

/-- C3 (code bug): a feed item whose `coordinates` key is present with
value `null` makes the per-item normalization raise `TypeError` — line 123
defaults only a *missing* key, so `coords` becomes `None` and line 132
calls `len(None)`; the exception aborts the whole invocation with nothing
published. The spec says normalization is total on nullable/partial
coordinates (`depth_km` should be null); the `or {}` guards on lines
121-122 show the intended null-tolerance, missing only here. -/
theorem c3_null_coordinates_crash :
    normalizeItem "2024-01-01T00:00:00+00:00" itemNullCoords =
      .error "TypeError: object of type NoneType has no len" ∧
    (handler cfgW bNullCoordsFeed).result =
      .error "TypeError: object of type NoneType has no len" ∧
    (handler cfgW bNullCoordsFeed).published = [] := by
  exact ⟨rfl, rfl, rfl⟩

/-- C4 (confirmed): with both credential strings empty, `_ai_summarize`
returns exactly the placeholder for every input record and every provider
behaviour — the quantification over `b` shows no provider call can
influence the result, i.e. none is consulted. -/
theorem c4_no_credentials_placeholder (cfg : Config) (b : Behaviour)
    (plain : NormalizedAlert) (h1 : cfg.OPENROUTER_API_KEY = "")
    (h2 : cfg.HF_TOKEN = "") :
    _ai_summarize cfg b plain = "Summary unavailable." := by
  simp [_ai_summarize, h1, h2]

/-- C4 witness: the placeholder at a concrete unconfigured setup. -/
theorem c4_witness : _ai_summarize cfgW bW plainW = "Summary unavailable." :=
  c4_no_credentials_placeholder cfgW bW plainW rfl rfl

/-- C5 (amended): with only the secondary provider configured, an
*exception* of the secondary call falls through to the placeholder and a
`summary_text` response yields that text trimmed; but a response that
parses as JSON while lacking `summary_text` in either shape does **not**
fall through — line 89 returns `str(out)[:300]`. The observable outcomes
are a provider summary, such a 300-character truncated stringification, or
the placeholder; never an exception. -/
theorem c5_secondary_outcomes (cfg : Config) (b : Behaviour)
    (plain : NormalizedAlert) (hor : cfg.OPENROUTER_API_KEY = "")
    (hhf : cfg.HF_TOKEN ≠ "") :
    (∀ u, b.secondary plain = .error u →
      _ai_summarize cfg b plain = "Summary unavailable.") ∧
    (∀ r, b.secondary plain = .ok (.other r) →
      _ai_summarize cfg b plain = String.mk (r.toList.take 300)) ∧
    (∀ s, b.secondary plain = .ok (.listWithSummary s) ∨
        b.secondary plain = .ok (.dictWithSummary s) →
      _ai_summarize cfg b plain = s.trim) := by
  refine ⟨?_, ?_, ?_⟩
  · intro u hu; simp [_ai_summarize, hor, hhf, hu]
  · intro r hr; simp [_ai_summarize, hor, hhf, hr]
  · intro s hs
    rcases hs with hs | hs <;> simp [_ai_summarize, hor, hhf, hs]

/-- C5 witness: a raising secondary call, with only its token configured,
produces the placeholder. -/
theorem c5_witness : _ai_summarize cfgHF bHFError plainW = "Summary unavailable." :=
  (c5_secondary_outcomes cfgHF bHFError plainW rfl (by decide)).1 () rfl

/-- C5 counterexample: a secondary response that is valid JSON without
`summary_text` (here `str(out) = "oops"`) returns `"oops"`, not the
placeholder — refuting "falls through and returns the fixed placeholder"
for the malformed-JSON case. -/
theorem c5_counterexample :
    cfgHF.HF_TOKEN ≠ "" ∧
    bHFMalformed.secondary plainW = .ok (.other "oops") ∧
    _ai_summarize cfgHF bHFMalformed plainW = "oops" ∧
    "oops" ≠ "Summary unavailable." := by
  exact ⟨by decide, rfl, by decide, by decide⟩

/-- C6 (amended): when fetch succeeds and the snapshot publish raises, the
failure is caught (lines 175-179): the handler does not raise and the
invocation completes returning `{"count": n}`. Contrary to the claim, the
failure is *not* reported as part of the invocation result — the result
carries only the count, no error field. -/
theorem c6_publish_failure_swallowed (cfg : Config) (b : Behaviour)
    (feat : Option (List RawFeedItem)) (pe : String)
    (hfetch : b.fetchResult = .ok feat)
    (hok : ∀ f ∈ (feat.getD []).take cfg.MAX_ITEMS,
      (normalizeItem b.nowIso f).isOk = true)
    (hpub : b.publish (snapshotOf cfg b ((feat.getD []).take cfg.MAX_ITEMS)) =
      .error pe) :
    (handler cfg b).result =
      .ok (.count (snapshotOf cfg b ((feat.getD []).take cfg.MAX_ITEMS)).length) ∧
    ∀ msg, (handler cfg b).result ≠ .ok (.error msg) := by
  have herr := (processFeed_ok cfg b b.nowIso _ hok).1
  constructor
  · simp [handler, hfetch, herr, snapshotOf]
  · intro msg
    simp [handler, hfetch, herr]

/-- C6 witness: concrete successful fetch with a raising S3 put. -/
theorem c6_witness :
    (handler cfgW bPubFail).result =
      .ok (.count (snapshotOf cfgW bPubFail [itemW]).length) :=
  (c6_publish_failure_swallowed cfgW bPubFail (some [itemW]) "AccessDenied"
    rfl (by decide) rfl).1

/-- C6 counterexample: the publish raises, yet the invocation result is
`{"count": 1}` with no error field — the failure is caught but *not*
reported upward, refuting "reported upward as part of the invocation
result". -/
theorem c6_counterexample :
    bPubFail.publish (snapshotOf cfgW bPubFail [itemW]) = .error "AccessDenied" ∧
    (handler cfgW bPubFail).result = .ok (.count 1) := by
  exact ⟨rfl, by decide⟩

/-- C7 (confirmed): every published snapshot has at most
`SUMMARIES_TO_KEEP` entries; the processed batch has at most `MAX_ITEMS`
entries; and in the 50-item scenario with `MAX_ITEMS = 40` and
`SUMMARIES_TO_KEEP = 30` the batch has exactly 40 entries and the one
published snapshot exactly 30. -/
theorem c7_size_invariants (cfg : Config) (b : Behaviour) :
    (∀ s ∈ (handler cfg b).published, s.length ≤ cfg.SUMMARIES_TO_KEEP) ∧
    (∀ feat, b.fetchResult = .ok feat →
      (processFeed cfg b b.nowIso
        ((feat.getD []).take cfg.MAX_ITEMS)).records.length ≤ cfg.MAX_ITEMS) ∧
    (∀ feat, b.fetchResult = .ok feat → (feat.getD []).length = 50 →
      cfg.MAX_ITEMS = 40 → cfg.SUMMARIES_TO_KEEP = 30 →
      (∀ f ∈ (feat.getD []).take cfg.MAX_ITEMS,
        (normalizeItem b.nowIso f).isOk = true) →
      (processFeed cfg b b.nowIso
          ((feat.getD []).take cfg.MAX_ITEMS)).records.length = 40 ∧
      (handler cfg b).published.map List.length = [30]) := by
  refine ⟨?_, ?_, ?_⟩
  · intro s hs
    cases hf : b.fetchResult with
    | error e =>
      cases hp : b.publish [] with
      | ok u => simp [handler, hf, hp] at hs; simp [hs]
      | error pe => simp [handler, hf, hp] at hs; simp [hs]
    | ok feat =>
      cases herr : (processFeed cfg b b.nowIso ((feat.getD []).take cfg.MAX_ITEMS)).err with
      | some e => simp [handler, hf, herr] at hs
      | none =>
        simp [handler, hf, herr] at hs
        rw [hs, List.length_take]
        exact Nat.min_le_left _ _
  · intro feat _
    calc (processFeed cfg b b.nowIso ((feat.getD []).take cfg.MAX_ITEMS)).records.length
        ≤ ((feat.getD []).take cfg.MAX_ITEMS).length := processFeed_length_le _ _ _ _
      _ ≤ cfg.MAX_ITEMS := by rw [List.length_take]; exact Nat.min_le_left _ _
  · intro feat hf h50 hM hN hok
    have hlen := (processFeed_ok cfg b b.nowIso _ hok).2
    have herr := (processFeed_ok cfg b b.nowIso _ hok).1
    have hbatch : (processFeed cfg b b.nowIso
        ((feat.getD []).take cfg.MAX_ITEMS)).records.length = 40 := by
      rw [hlen, List.length_take, h50, hM]
      decide
    refine ⟨hbatch, ?_⟩
    have hsort := pySortedDesc_const _ b.nowIso
      (processFeed_created_at cfg b b.nowIso ((feat.getD []).take cfg.MAX_ITEMS))
    simp [handler, hf, herr, hsort, List.length_take, hbatch, hN]

/-- C7 witness: the concrete 50-item scenario. -/
theorem c7_witness :
    (feed50.length = 50 ∧ cfgB.MAX_ITEMS = 40 ∧ cfgB.SUMMARIES_TO_KEEP = 30) ∧
    (processFeed cfgB b50 b50.nowIso (feed50.take cfgB.MAX_ITEMS)).records.length = 40 ∧
    (handler cfgB b50).published.map List.length = [30] :=
  ⟨⟨by decide, rfl, rfl⟩,
    (c7_size_invariants cfgB b50).2.2 (some feed50) rfl (by decide) rfl rfl
      (by decide)⟩

/-! Hex-digest lemmas for the id claim. -/

theorem hexChar_mem (n : Nat) : hexChar n ∈ hexDigitsL := by
  unfold hexChar
  rcases Nat.lt_or_ge n hexDigitsL.length with h | h
  · rw [List.getD_eq_getElem _ _ h]
    exact List.getElem_mem h
  · rw [List.getD_eq_default _ _ h]
    decide

theorem wordHexChars_length (w : Nat) : (wordHexChars w).length = 8 := by
  simp [wordHexChars]

theorem wordHexChars_mem (w : Nat) (c : Char) (hc : c ∈ wordHexChars w) :
    c ∈ hexDigitsL := by
  simp only [wordHexChars, List.mem_map] at hc
  obtain ⟨k, _, rfl⟩ := hc
  exact hexChar_mem _

theorem sha1HexChars_length (msg : List Nat) : (sha1HexChars msg).length = 40 := by
  unfold sha1HexChars
  obtain ⟨h0, h1, h2, h3, h4⟩ := sha1Words msg
  simp [wordHexChars_length]

theorem sha1HexChars_hex (msg : List Nat) (c : Char)
    (hc : c ∈ sha1HexChars msg) : c ∈ hexDigitsL := by
  unfold sha1HexChars at hc
  obtain ⟨h0, h1, h2, h3, h4⟩ := sha1Words msg
  simp only [List.mem_append] at hc
  rcases hc with ((((h | h) | h) | h) | h) <;> exact wordHexChars_mem _ _ h

/-- C8 (confirmed): the id derived on line 145 is a deterministic function
of the `(time_utc, place, magnitude)` triple — equal triples give equal
ids — and every id is exactly 16 characters, each a lowercase hex digit. -/
theorem c8_id_deterministic_and_hex :
    ∀ (t : String) (p : Option String) (m : Option ℚ),
      ((_id (idInput t p m)).length = 16 ∧
        ∀ c ∈ (_id (idInput t p m)).data, c ∈ hexDigitsL) ∧
      ∀ (t2 : String) (p2 : Option String) (m2 : Option ℚ),
        t = t2 → p = p2 → m = m2 →
          _id (idInput t p m) = _id (idInput t2 p2 m2) := by
  intro t p m
  refine ⟨⟨?_, ?_⟩, ?_⟩
  · show ((sha1HexChars (strBytes (idInput t p m))).take 16).length = 16
    rw [List.length_take, sha1HexChars_length]
    decide
  · intro c hc
    have hc2 : c ∈ (sha1HexChars (strBytes (idInput t p m))).take 16 := hc
    exact sha1HexChars_hex _ _ (List.mem_of_mem_take hc2)
  · intro t2 p2 m2 h1 h2 h3
    rw [h1, h2, h3]

/-- C8 witness: the determinism hypothesis discharged at a concrete
triple, together with the 16-character conclusion there. -/
theorem c8_witness :
    (_id (idInput "2000-02-29T23:30:00+00:00" (some "p") (some 5))).length = 16 ∧
    _id (idInput "2000-02-29T23:30:00+00:00" (some "p") (some 5)) =
      _id (idInput "2000-02-29T23:30:00+00:00" (some "p") (some 5)) :=
  ⟨(c8_id_deterministic_and_hex "2000-02-29T23:30:00+00:00" (some "p") (some 5)).1.1,
   (c8_id_deterministic_and_hex "2000-02-29T23:30:00+00:00" (some "p") (some 5)).2
     "2000-02-29T23:30:00+00:00" (some "p") (some 5) rfl rfl rfl⟩

/-- C9 (amended): `time_utc` is the ISO-8601 UTC conversion of the source
millisecond timestamp whenever that timestamp is present and *nonzero*;
the invocation `now` is used when the time is absent, null, or `0` —
line 130 tests Python truthiness (`if tms`), not presence, so the integer
`0` falls back to `now`, contrary to the claim's "any integer value,
including 0" (see the counterexample). -/
theorem c9_time_utc (now : String) (f : RawFeedItem) (a : NormalizedAlert)
    (h : normalizeItem now f = .ok a) :
    (∀ tms, f.time = some tms → tms ≠ 0 → a.time_utc = isoOfMillis tms) ∧
    ((f.time = none ∨ f.time = some 0) → a.time_utc = now) := by
  have ht := normalizeItem_time now f a h
  constructor
  · intro tms htms hne
    rw [ht, htms]
    simp [hne]
  · intro hcase
    rcases hcase with hc | hc <;> rw [ht, hc] <;> simp

/-- C9 witness: a present nonzero timestamp converts; concrete values. -/
theorem c9_witness :
    normalizeItem "NOW" itemT = .ok alertT ∧
    alertT.time_utc = isoOfMillis 1700000000000 :=
  ⟨by decide,
   (c9_time_utc "NOW" itemT alertT (by decide)).1 1700000000000 rfl (by decide)⟩

/-- C9 counterexample: a feed item with `time = 0` gets `time_utc = now`
although the claim requires the epoch conversion
`1970-01-01T00:00:00+00:00`. -/
theorem c9_counterexample :
    (normalizeItem "2024-01-01T00:00:00+00:00" itemTimeZero).map
      (fun x => x.time_utc) = .ok "2024-01-01T00:00:00+00:00" ∧
    isoOfMillis 0 = "1970-01-01T00:00:00+00:00" ∧
    ("2024-01-01T00:00:00+00:00" : String) ≠ "1970-01-01T00:00:00+00:00" := by
  exact ⟨by decide, by decide, by decide⟩

/-- C10 (confirmed): on an invocation that completes its loop, every batch
record carries the invocation's single `created_at`, the stable descending
sort by `created_at` is the identity on the batch, and the published
snapshot is exactly the processing of the first
`min(MAX_ITEMS, SUMMARIES_TO_KEEP)` feed items in upstream order. -/
theorem c10_snapshot_order (cfg : Config) (b : Behaviour)
    (feat : Option (List RawFeedItem))
    (hfetch : b.fetchResult = .ok feat)
    (hok : ∀ f ∈ (feat.getD []).take cfg.MAX_ITEMS,
      (normalizeItem b.nowIso f).isOk = true) :
    (∀ r ∈ (processFeed cfg b b.nowIso
        ((feat.getD []).take cfg.MAX_ITEMS)).records, r.created_at = b.nowIso) ∧
    pySortedDesc (processFeed cfg b b.nowIso
        ((feat.getD []).take cfg.MAX_ITEMS)).records =
      (processFeed cfg b b.nowIso ((feat.getD []).take cfg.MAX_ITEMS)).records ∧
    (handler cfg b).published =
      [(processFeed cfg b b.nowIso
          ((feat.getD []).take (min cfg.MAX_ITEMS cfg.SUMMARIES_TO_KEEP))).records] := by
  have hca := processFeed_created_at cfg b b.nowIso ((feat.getD []).take cfg.MAX_ITEMS)
  have hsort := pySortedDesc_const _ b.nowIso hca
  have herr := (processFeed_ok cfg b b.nowIso _ hok).1
  refine ⟨hca, hsort, ?_⟩
  have hpub : (handler cfg b).published =
      [(pySortedDesc (processFeed cfg b b.nowIso
        ((feat.getD []).take cfg.MAX_ITEMS)).records).take cfg.SUMMARIES_TO_KEEP] := by
    simp [handler, hfetch, herr]
  rw [hpub, hsort, ← processFeed_take cfg b b.nowIso _ hok cfg.SUMMARIES_TO_KEEP,
    List.take_take, Nat.min_comm]

/-- C10 witness: four distinct items, `MAX_ITEMS = 3`,
`SUMMARIES_TO_KEEP = 2`: the snapshot is the processing of the first two
feed items in feed order. -/
theorem c10_witness :
    (handler cfgSmall bFour).published =
      [(processFeed cfgSmall bFour bFour.nowIso
          (fourItems.take (min cfgSmall.MAX_ITEMS cfgSmall.SUMMARIES_TO_KEEP))).records] :=
  (c10_snapshot_order cfgSmall bFour (some fourItems) rfl (by decide)).2.2

end Handler
